import Mathlib

/-!
Verification of the ImageDiffEngine extracted from the repository's
`generateDifferenceImage` routine (src/src/App.tsx).  The per-pixel
difference logic (absolute per-channel differences, strict threshold test,
overlay synthesis, changed-pixel count and change ratio) is translated
directly from the source loop at App.tsx lines 142-167.  The surrounding
engine interface (options record, size policies, typed error results) is
the spec's generalization of that loop and is modelled from the spec where
the source has no corresponding code.
-/

namespace ImageDiff

/-- One RGBA pixel sample; each channel is an 8-bit value 0-255 in intended
use (the arithmetic below is total on all of Nat). -/
structure Pixel where
  r : Nat
  g : Nat
  b : Nat
  a : Nat
  deriving DecidableEq, Repr

/-- A decoded raster image: width, height and a row-major list of RGBA
pixels (App.tsx stores the same data as a flat RGBA byte buffer,
four consecutive bytes per pixel). -/
structure RasterImage where
  width : Nat
  height : Nat
  pixels : List Pixel
  deriving DecidableEq, Repr

/-- Modelled from the spec: positions outside an image's original bounds
read as fully transparent black (spec §4.1 step 2; the source indexes the
buffers unguarded, which the spec replaces by this deterministic policy). -/
def transparentBlack : Pixel := ⟨0, 0, 0, 0⟩

/-- Read the RGBA sample at (x, y); outside the original bounds the read
yields `transparentBlack` (spec §4.1 step 2). -/
def RasterImage.pixelAt (img : RasterImage) (x y : Nat) : Pixel :=
  if x < img.width ∧ y < img.height then
    img.pixels.getD (y * img.width + x) transparentBlack
  else transparentBlack

/-- Read the pixel at flat row-major index i of a grid of width w
(the source loop walks the flat buffer; index i corresponds to
x = i % w, y = i / w). -/
def RasterImage.pixelAtIdx (img : RasterImage) (w i : Nat) : Pixel :=
  img.pixelAt (i % w) (i / w)

/-- `Math.abs(beforeImgData.data[i] - afterImgData.data[i])` of
App.tsx lines 144-146: absolute difference of two channel values. -/
def absDiff (x y : Nat) : Nat := ((x : Int) - (y : Int)).natAbs

/-- The changed-pixel test of App.tsx lines 144-149: a pixel is changed
iff any of the R, G, B absolute differences is strictly greater than the
threshold; the alpha channel is not examined. -/
def pixelChanged (threshold : Nat) (p q : Pixel) : Bool :=
  absDiff p.r q.r > threshold || absDiff p.g q.g > threshold ||
    absDiff p.b q.b > threshold

/-- The overlay write of App.tsx lines 149-160: the flag color where the
pixel is changed, the unmodified after pixel (all four channels) where
it is not. -/
def overlayPixel (threshold : Nat) (flagColor p q : Pixel) : Pixel :=
  if pixelChanged threshold p q then flagColor else q

/-- Modelled from the spec: the size policies of §4.1 (the source has only
the RESIZE_TO_BEFORE behavior, adopting the before image's dimensions as
canvas size at App.tsx lines 128-129). -/
inductive SizePolicy where
  | REQUIRE_EQUAL
  | RESIZE_TO_BEFORE
  | RESIZE_TO_SMALLER
  deriving DecidableEq, Repr

/-- Modelled from the spec: the options record of §4.1; the defaults are
the constants hard-coded in the source (threshold 30 at line 148, flag
color 255/0/0/128 at lines 151-154). -/
structure Options where
  threshold : Nat := 30
  flagColor : Pixel := ⟨255, 0, 0, 128⟩
  sizePolicy : SizePolicy := SizePolicy.RESIZE_TO_BEFORE
  deriving DecidableEq, Repr

/-- Modelled from the spec: the typed failure results of §7 (the source
performs no such validation). -/
inductive DiffError where
  | DimensionMismatch
  | EmptyImage
  deriving DecidableEq, Repr

/-- The output value object of spec §3. -/
structure DiffResult where
  overlay : RasterImage
  changedPixelCount : Nat
  totalPixelCount : Nat
  changeRatio : ℚ
  deriving DecidableEq, Repr

/-- Modelled from the spec: resolution of the common grid per size policy
(§4.1 step 1); RESIZE_TO_BEFORE mirrors App.tsx lines 128-129. -/
def resolveDims (policy : SizePolicy) (bw bh aw ah : Nat) :
    Option (Nat × Nat) :=
  match policy with
  | SizePolicy.REQUIRE_EQUAL =>
      if bw = aw ∧ bh = ah then some (bw, bh) else none
  | SizePolicy.RESIZE_TO_BEFORE => some (bw, bh)
  | SizePolicy.RESIZE_TO_SMALLER => some (min bw aw, min bh ah)

/-- The changed test at flat index i of the common grid of width w,
exactly the condition of App.tsx line 149 applied to the two samples. -/
def changedAtIdx (threshold : Nat) (before after : RasterImage)
    (w i : Nat) : Bool :=
  pixelChanged threshold (before.pixelAtIdx w i) (after.pixelAtIdx w i)

/-- The successful result of a comparison over a resolved common grid
w × h, translated from the loop body of App.tsx lines 142-167: walk every
position of the grid, classify it with the threshold test, write the flag
color or the unchanged after pixel into the overlay, count the changed
positions, and divide by the total pixel count. -/
def diffResultOf (before after : RasterImage) (opts : Options)
    (w h : Nat) : DiffResult :=
  { overlay :=
      ⟨w, h,
        (List.range (w * h)).map (fun i =>
          overlayPixel opts.threshold opts.flagColor
            (before.pixelAtIdx w i) (after.pixelAtIdx w i))⟩
    changedPixelCount :=
      ((List.range (w * h)).filter
        (fun i => changedAtIdx opts.threshold before after w i)).length
    totalPixelCount := w * h
    changeRatio :=
      ((((List.range (w * h)).filter
        (fun i => changedAtIdx opts.threshold before after w i)).length : ℚ)
        / ((w * h : Nat) : ℚ)) }

/-- The engine operation of spec §4.1.  The validation and option
plumbing is modelled from the spec (the source has none); the per-pixel
scan, the count and the ratio are translated from App.tsx lines 142-167
(see `diffResultOf`). -/
def compare (before after : RasterImage) (opts : Options) :
    Except DiffError DiffResult :=
  if before.width = 0 ∨ before.height = 0 ∨
      after.width = 0 ∨ after.height = 0 then
    Except.error DiffError.EmptyImage
  else
    match resolveDims opts.sizePolicy before.width before.height
        after.width after.height with
    | none => Except.error DiffError.DimensionMismatch
    | some (w, h) => Except.ok (diffResultOf before after opts w h)

/-! ### Concrete sample images (used by witnesses) -/

/-- A 1×1 image. -/
def img1x1 : RasterImage := ⟨1, 1, [⟨10, 20, 30, 255⟩]⟩

/-- A 1×1 image whose red channel differs from `img1x1` by 190. -/
def img1x1Far : RasterImage := ⟨1, 1, [⟨200, 20, 30, 255⟩]⟩

/-- A 2×2 image (spec §8 dimension-policy example). -/
def imgB2 : RasterImage :=
  ⟨2, 2, [⟨0, 0, 0, 255⟩, ⟨10, 10, 10, 255⟩,
          ⟨20, 20, 20, 255⟩, ⟨30, 30, 30, 255⟩]⟩

/-- A 3×3 image (spec §8 dimension-policy example). -/
def imgA3 : RasterImage :=
  ⟨3, 3, List.replicate 9 ⟨100, 100, 100, 255⟩⟩

/-- The empty 0×0 image (spec §8 empty-input example). -/
def imgEmpty : RasterImage := ⟨0, 0, []⟩

/-- The comparison result for `img1x1` against `img1x1Far`. -/
def resFar : DiffResult := diffResultOf img1x1 img1x1Far {} 1 1

/-- The comparison result for `img1x1` against itself. -/
def resSelf : DiffResult := diffResultOf img1x1 img1x1 {} 1 1

/-- The comparison result for `imgB2` against `imgA3`. -/
def resB2A3 : DiffResult := diffResultOf imgB2 imgA3 {} 2 2

/-! ### Helper lemmas -/

/-- Inversion of a successful `compare`: the inputs were non-empty, the
size policy resolved a grid, and the result is `diffResultOf` on it. -/
theorem compare_ok_elim {before after : RasterImage} {opts : Options}
    {res : DiffResult} (h : compare before after opts = Except.ok res) :
    0 < before.width ∧ 0 < before.height ∧ 0 < after.width ∧
      0 < after.height ∧
      ∃ w hh, resolveDims opts.sizePolicy before.width before.height
          after.width after.height = some (w, hh) ∧
        res = diffResultOf before after opts w hh := by
  unfold compare at h
  split at h
  · exact absurd h (by simp)
  · rename_i hne
    split at h
    · exact absurd h (by simp)
    · rename_i w hh hdims
      refine ⟨by omega, by omega, by omega, by omega, w, hh, hdims, ?_⟩
      exact (Except.ok.injEq _ _ ▸ h).symm

/-- A resolved grid of non-empty inputs is non-empty. -/
theorem resolveDims_pos {policy : SizePolicy} {bw bh aw ah w h : Nat}
    (hr : resolveDims policy bw bh aw ah = some (w, h))
    (h1 : 0 < bw) (h2 : 0 < bh) (h3 : 0 < aw) (h4 : 0 < ah) :
    0 < w ∧ 0 < h := by
  cases policy <;> simp [resolveDims] at hr
  · obtain ⟨⟨hw, hh⟩, hw2, hh2⟩ := hr
    omega
  · omega
  · omega

/-- An element of `map f (range n)` read with a default. -/
theorem getD_map_range {α : Type} (f : Nat → α) {n i : Nat} (hi : i < n)
    (d : α) : ((List.range n).map f).getD i d = f i := by
  rw [List.getD_eq_getElem?_getD]
  simp [List.getElem?_map, List.getElem?_range, hi]

/-- Reading each index back with a default rebuilds a list. -/
theorem map_getD_range {α : Type} (l : List α) (d : α) :
    (List.range l.length).map (fun i => l.getD i d) = l := by
  apply List.ext_getElem
  · simp
  · intro i h1 h2
    simp [List.getD_eq_getElem?_getD, List.getElem?_eq_getElem h2]

/-- `absDiff` is symmetric. -/
theorem absDiff_comm (x y : Nat) : absDiff x y = absDiff y x := by
  unfold absDiff
  omega

/-- A pixel never differs from itself above any threshold. -/
theorem pixelChanged_self (t : Nat) (p : Pixel) :
    pixelChanged t p p = false := by
  simp [pixelChanged, absDiff]

/-- The changed test is monotone downward in the threshold. -/
theorem pixelChanged_mono {t u : Nat} (htu : t ≤ u) (p q : Pixel)
    (h : pixelChanged u p q = true) : pixelChanged t p q = true := by
  simp only [pixelChanged, Bool.or_eq_true, decide_eq_true_eq] at h ⊢
  omega

/-- The changed test is symmetric in the two pixels. -/
theorem pixelChanged_comm (t : Nat) (p q : Pixel) :
    pixelChanged t p q = pixelChanged t q p := by
  simp only [pixelChanged, absDiff_comm]

/-- Filtering with a stronger predicate keeps at most as many elements. -/
theorem length_filter_mono {α : Type} {p q : α → Bool} (l : List α)
    (hpq : ∀ a, p a = true → q a = true) :
    (l.filter p).length ≤ (l.filter q).length := by
  induction l with
  | nil => simp
  | cons x xs ih =>
      by_cases hx : p x = true
      · simp [List.filter_cons, hx, hpq x hx]
        omega
      · simp only [List.filter_cons]
        rw [Bool.not_eq_true] at hx
        rw [hx]
        cases hq : q x <;> simp <;> omega

/-! ### Claim theorems -/

/-- C5: under a resize policy that does not pre-scale, a pixel read at a
position outside an image's original bounds yields fully transparent black
(r=0, g=0, b=0, a=0), so the comparison at such a position is a well
defined, deterministic function of the in-bounds pixel alone. -/
theorem pixel_out_of_bounds (before img : RasterImage) (t x y : Nat)
    (hout : img.width ≤ x ∨ img.height ≤ y) :
    img.pixelAt x y = transparentBlack ∧
    pixelChanged t (before.pixelAt x y) (img.pixelAt x y) =
      pixelChanged t (before.pixelAt x y) transparentBlack := by
  have h : img.pixelAt x y = transparentBlack := by
    unfold RasterImage.pixelAt
    rw [if_neg (by omega)]
  exact ⟨h, by rw [h]⟩

/-- Witness for C5: reading `imgA3` at column 2 of a 2-wide grid is out of
bounds of nothing, so use `img1x1` read at (1, 0), past its width. -/
theorem pixel_out_of_bounds_witness :
    (img1x1.width ≤ 1 ∨ img1x1.height ≤ 0) ∧
    (img1x1.pixelAt 1 0 = transparentBlack ∧
      pixelChanged 30 (imgB2.pixelAt 1 0) (img1x1.pixelAt 1 0) =
        pixelChanged 30 (imgB2.pixelAt 1 0) transparentBlack) :=
  ⟨Or.inl (by decide),
    pixel_out_of_bounds imgB2 img1x1 30 1 0 (Or.inl (by decide))⟩

/-- C6: if either input image has zero width or zero height, `compare`
fails with the typed error `EmptyImage` and returns that failure result to
the caller instead of producing a `DiffResult`. -/
theorem compare_empty_input (before after : RasterImage) (opts : Options)
    (h : before.width = 0 ∨ before.height = 0 ∨
      after.width = 0 ∨ after.height = 0) :
    compare before after opts = Except.error DiffError.EmptyImage := by
  unfold compare
  rw [if_pos h]

/-- Witness for C6: a 0×0 image on the before side fails with
`EmptyImage`. -/
theorem compare_empty_input_witness :
    (imgEmpty.width = 0 ∨ imgEmpty.height = 0 ∨
      img1x1.width = 0 ∨ img1x1.height = 0) ∧
    compare imgEmpty img1x1 {} = Except.error DiffError.EmptyImage :=
  ⟨Or.inl rfl, compare_empty_input imgEmpty img1x1 {} (Or.inl rfl)⟩

/-- C7: under size policy RESIZE_TO_BEFORE (the default), every pair of
non-empty inputs succeeds, and the overlay's dimensions — the common grid
of the comparison — are the before image's dimensions. -/
theorem compare_resize_to_before (before after : RasterImage)
    (opts : Options)
    (hsp : opts.sizePolicy = SizePolicy.RESIZE_TO_BEFORE)
    (h1 : 0 < before.width) (h2 : 0 < before.height)
    (h3 : 0 < after.width) (h4 : 0 < after.height) :
    ∃ res, compare before after opts = Except.ok res ∧
      res.overlay.width = before.width ∧
      res.overlay.height = before.height ∧
      res.totalPixelCount = before.width * before.height := by
  refine ⟨diffResultOf before after opts before.width before.height,
    ?_, rfl, rfl, rfl⟩
  unfold compare
  rw [if_neg (by omega), hsp]
  rfl

/-- Witness for C7: the spec §8 example — a 2×2 before with a 3×3 after
succeeds under the default policy and returns a 2×2 overlay. -/
theorem compare_resize_to_before_witness :
    (Options.sizePolicy {} = SizePolicy.RESIZE_TO_BEFORE) ∧
    (0 < imgB2.width ∧ 0 < imgB2.height ∧
      0 < imgA3.width ∧ 0 < imgA3.height) ∧
    ∃ res, compare imgB2 imgA3 {} = Except.ok res ∧
      res.overlay.width = imgB2.width ∧
      res.overlay.height = imgB2.height ∧
      res.totalPixelCount = imgB2.width * imgB2.height :=
  ⟨rfl, ⟨by decide, by decide, by decide, by decide⟩,
    compare_resize_to_before imgB2 imgA3 {} rfl
      (by decide) (by decide) (by decide) (by decide)⟩

/-- C8: `compare` is deterministic — for fixed inputs and options, any two
successful invocations agree on the overlay, the changed-pixel count, the
change ratio, and the whole result; the embedding is a pure function of
its arguments with no other dependency. -/
theorem compare_deterministic (before after : RasterImage) (opts : Options)
    (r1 r2 : DiffResult)
    (h1 : compare before after opts = Except.ok r1)
    (h2 : compare before after opts = Except.ok r2) :
    r1.overlay = r2.overlay ∧
    r1.changedPixelCount = r2.changedPixelCount ∧
    r1.changeRatio = r2.changeRatio ∧ r1 = r2 := by
  have h := h1.symm.trans h2
  injection h with h
  subst h
  exact ⟨rfl, rfl, rfl, rfl⟩

/-- Witness for C8: two invocations on `img1x1` and `img1x1Far` agree. -/
theorem compare_deterministic_witness :
    compare img1x1 img1x1Far {} = Except.ok resFar ∧
    (resFar.overlay = resFar.overlay ∧
      resFar.changedPixelCount = resFar.changedPixelCount ∧
      resFar.changeRatio = resFar.changeRatio ∧ resFar = resFar) :=
  ⟨rfl, compare_deterministic img1x1 img1x1Far {} resFar resFar rfl rfl⟩

/-- C3: for every accepted pair of inputs, the changed-pixel count is at
most the total pixel count, the change ratio equals their quotient, and
the ratio lies in [0, 1]. -/
theorem compare_bounds (before after : RasterImage) (opts : Options)
    (res : DiffResult) (h : compare before after opts = Except.ok res) :
    res.changedPixelCount ≤ res.totalPixelCount ∧
    res.changeRatio =
      (res.changedPixelCount : ℚ) / (res.totalPixelCount : ℚ) ∧
    0 ≤ res.changeRatio ∧ res.changeRatio ≤ 1 := by
  obtain ⟨h1, h2, h3, h4, w, hh, hdims, hres⟩ := compare_ok_elim h
  obtain ⟨hw, hhh⟩ := resolveDims_pos hdims h1 h2 h3 h4
  subst hres
  have hcnt :
      ((List.range (w * hh)).filter
        (fun i => changedAtIdx opts.threshold before after w i)).length ≤
        w * hh := by
    simpa using List.length_filter_le
      (fun i => changedAtIdx opts.threshold before after w i)
      (List.range (w * hh))
  have htot : (0 : ℚ) < ((w * hh : Nat) : ℚ) := by
    exact_mod_cast Nat.mul_pos hw hhh
  simp only [diffResultOf]
  refine ⟨hcnt, trivial, ?_, ?_⟩
  · exact div_nonneg (Nat.cast_nonneg _) (Nat.cast_nonneg _)
  · rw [div_le_one htot]
    exact_mod_cast hcnt

/-- Witness for C3 at the concrete pair `img1x1`, `img1x1Far`. -/
theorem compare_bounds_witness :
    compare img1x1 img1x1Far {} = Except.ok resFar ∧
    (resFar.changedPixelCount ≤ resFar.totalPixelCount ∧
      resFar.changeRatio =
        (resFar.changedPixelCount : ℚ) / (resFar.totalPixelCount : ℚ) ∧
      0 ≤ resFar.changeRatio ∧ resFar.changeRatio ≤ 1) :=
  ⟨rfl, compare_bounds img1x1 img1x1Far {} resFar rfl⟩

/-- C9: the changed-pixel count is antitone in the threshold — raising the
threshold from t to t' can only lower (or keep) the count, for inputs of
equal dimensions and otherwise identical options. -/
theorem changed_count_antitone (before after : RasterImage)
    (opts : Options) (t t' : Nat) (r r' : DiffResult)
    (_hdw : before.width = after.width)
    (_hdh : before.height = after.height)
    (htt : t ≤ t')
    (h : compare before after { opts with threshold := t } =
      Except.ok r)
    (h' : compare before after { opts with threshold := t' } =
      Except.ok r') :
    r'.changedPixelCount ≤ r.changedPixelCount := by
  obtain ⟨_, _, _, _, w, hh, hdims, hres⟩ := compare_ok_elim h
  obtain ⟨_, _, _, _, w2, hh2, hdims2, hres2⟩ := compare_ok_elim h'
  rw [show ({ opts with threshold := t' } : Options).sizePolicy =
      ({ opts with threshold := t } : Options).sizePolicy from rfl,
    hdims] at hdims2
  injection hdims2 with hdims2
  simp only [Prod.mk.injEq] at hdims2
  obtain ⟨rfl, rfl⟩ := hdims2
  subst hres
  subst hres2
  simp only [diffResultOf]
  exact length_filter_mono _ (fun i hi => pixelChanged_mono htt _ _ hi)

/-- Witness for C9 at thresholds 30 ≤ 31 on `img1x1`, `img1x1Far`. -/
theorem changed_count_antitone_witness :
    (img1x1.width = img1x1Far.width ∧ img1x1.height = img1x1Far.height ∧
      (30 : Nat) ≤ 31 ∧
      compare img1x1 img1x1Far { threshold := 30 } =
        Except.ok (diffResultOf img1x1 img1x1Far { threshold := 30 } 1 1) ∧
      compare img1x1 img1x1Far { threshold := 31 } =
        Except.ok (diffResultOf img1x1 img1x1Far { threshold := 31 } 1 1)) ∧
    (diffResultOf img1x1 img1x1Far { threshold := 31 } 1 1).changedPixelCount ≤
      (diffResultOf img1x1 img1x1Far { threshold := 30 } 1 1).changedPixelCount :=
  ⟨⟨rfl, rfl, by decide, rfl, rfl⟩,
    changed_count_antitone img1x1 img1x1Far {} 30 31
      (diffResultOf img1x1 img1x1Far { threshold := 30 } 1 1)
      (diffResultOf img1x1 img1x1Far { threshold := 31 } 1 1)
      rfl rfl (by decide) rfl rfl⟩

/-- C10: the changed-pixel count (hence the change ratio) is symmetric in
the two images when their dimensions agree, since the per-channel
absolute difference is symmetric. -/
theorem changed_count_symm (a b : RasterImage) (opts : Options)
    (r1 r2 : DiffResult)
    (hw : a.width = b.width) (hh : a.height = b.height)
    (h1 : compare a b opts = Except.ok r1)
    (h2 : compare b a opts = Except.ok r2) :
    r1.changedPixelCount = r2.changedPixelCount ∧
    r1.changeRatio = r2.changeRatio := by
  obtain ⟨_, _, _, _, w1, hh1, hd1, hres1⟩ := compare_ok_elim h1
  obtain ⟨_, _, _, _, w2, hh2, hd2, hres2⟩ := compare_ok_elim h2
  rw [show resolveDims opts.sizePolicy b.width b.height a.width a.height =
      resolveDims opts.sizePolicy a.width a.height b.width b.height by
        rw [hw, hh], hd1] at hd2
  injection hd2 with hd2
  simp only [Prod.mk.injEq] at hd2
  obtain ⟨rfl, rfl⟩ := hd2
  subst hres1
  subst hres2
  have hfil :
      (List.range (w1 * hh1)).filter
          (fun i => changedAtIdx opts.threshold a b w1 i) =
        (List.range (w1 * hh1)).filter
          (fun i => changedAtIdx opts.threshold b a w1 i) := by
    apply List.filter_congr
    intro i _
    exact pixelChanged_comm _ _ _
  constructor
  · simp only [diffResultOf]
    rw [hfil]
  · simp only [diffResultOf]
    rw [hfil]

/-- Witness for C10: swapping `img1x1` and `img1x1Far` preserves the
count and the ratio. -/
theorem changed_count_symm_witness :
    (img1x1.width = img1x1Far.width ∧ img1x1.height = img1x1Far.height ∧
      compare img1x1 img1x1Far {} = Except.ok resFar ∧
      compare img1x1Far img1x1 {} =
        Except.ok (diffResultOf img1x1Far img1x1 {} 1 1)) ∧
    (resFar.changedPixelCount =
        (diffResultOf img1x1Far img1x1 {} 1 1).changedPixelCount ∧
      resFar.changeRatio =
        (diffResultOf img1x1Far img1x1 {} 1 1).changeRatio) :=
  ⟨⟨rfl, rfl, rfl, rfl⟩,
    changed_count_symm img1x1 img1x1Far {} resFar
      (diffResultOf img1x1Far img1x1 {} 1 1) rfl rfl rfl rfl⟩

/-- C1: a pixel of the common grid is classified "changed" iff at least
one of the R, G, B absolute differences strictly exceeds the threshold:
the changed-pixel count counts exactly these positions, the alpha channel
never enters the classification (replacing the alphas by any a1, a2 leaves
it unchanged), and a difference exactly equal to the threshold does not
count as changed. -/
theorem compare_changed_classification (before after : RasterImage)
    (opts : Options) (res : DiffResult) (i a1 a2 : Nat)
    (h : compare before after opts = Except.ok res) :
    res.changedPixelCount =
      ((List.range res.totalPixelCount).filter
        (fun j => changedAtIdx opts.threshold before after
          res.overlay.width j)).length ∧
    (changedAtIdx opts.threshold before after res.overlay.width i = true ↔
      (opts.threshold <
          absDiff (before.pixelAtIdx res.overlay.width i).r
            (after.pixelAtIdx res.overlay.width i).r ∨
        opts.threshold <
          absDiff (before.pixelAtIdx res.overlay.width i).g
            (after.pixelAtIdx res.overlay.width i).g ∨
        opts.threshold <
          absDiff (before.pixelAtIdx res.overlay.width i).b
            (after.pixelAtIdx res.overlay.width i).b)) ∧
    pixelChanged opts.threshold
        ⟨(before.pixelAtIdx res.overlay.width i).r,
          (before.pixelAtIdx res.overlay.width i).g,
          (before.pixelAtIdx res.overlay.width i).b, a1⟩
        ⟨(after.pixelAtIdx res.overlay.width i).r,
          (after.pixelAtIdx res.overlay.width i).g,
          (after.pixelAtIdx res.overlay.width i).b, a2⟩ =
      changedAtIdx opts.threshold before after res.overlay.width i := by
  obtain ⟨_, _, _, _, w, hh, hdims, hres⟩ := compare_ok_elim h
  subst hres
  refine ⟨rfl, ?_, rfl⟩
  simp only [changedAtIdx, pixelChanged, Bool.or_eq_true,
    decide_eq_true_eq]
  tauto

/-- Witness for C1: at `img1x1` vs `img1x1Far` (red differs by 190),
position 0 with alphas 7 and 9, the classification is "changed" because
the red difference strictly exceeds the threshold. -/
theorem compare_changed_classification_witness :
    compare img1x1 img1x1Far {} = Except.ok resFar ∧
    changedAtIdx (Options.threshold {}) img1x1 img1x1Far
      resFar.overlay.width 0 = true :=
  ⟨rfl,
    ((compare_changed_classification img1x1 img1x1Far {} resFar 0 7 9
      rfl).2.1).mpr (Or.inl (by decide))⟩

/-- C2: within the common grid, the overlay holds exactly the flag color
(default red 255/0/0 at alpha 128) at changed positions, and the
unmodified after pixel — all four RGBA channels — at unchanged ones. -/
theorem compare_overlay_content (before after : RasterImage)
    (opts : Options) (res : DiffResult) (i : Nat)
    (h : compare before after opts = Except.ok res)
    (hi : i < res.totalPixelCount) :
    (changedAtIdx opts.threshold before after res.overlay.width i = true →
      res.overlay.pixels.getD i transparentBlack = opts.flagColor) ∧
    (changedAtIdx opts.threshold before after res.overlay.width i =
        false →
      res.overlay.pixels.getD i transparentBlack =
        after.pixelAtIdx res.overlay.width i) ∧
    ({} : Options).flagColor = ⟨255, 0, 0, 128⟩ := by
  obtain ⟨_, _, _, _, w, hh, hdims, hres⟩ := compare_ok_elim h
  subst hres
  simp only [diffResultOf] at hi ⊢
  rw [getD_map_range _ hi]
  refine ⟨?_, ?_, trivial⟩
  · intro hch
    simp only [changedAtIdx] at hch
    simp [overlayPixel, hch]
  · intro hch
    simp only [changedAtIdx] at hch
    simp [overlayPixel, hch]

/-- Witness for C2: at `img1x1` vs `img1x1Far`, position 0 is inside the
grid and is changed, so the overlay pixel there is the default flag
color. -/
theorem compare_overlay_content_witness :
    compare img1x1 img1x1Far {} = Except.ok resFar ∧
    resFar.overlay.pixels.getD 0 transparentBlack =
      Options.flagColor {} :=
  ⟨rfl,
    (compare_overlay_content img1x1 img1x1Far {} resFar 0 rfl
      (by decide)).1 (by decide)⟩

/-- C4: comparing a well-formed non-empty image against itself under the
default options yields zero changed pixels and an overlay that is
pixel-for-pixel the input image. -/
theorem compare_self_identity (img : RasterImage) (res : DiffResult)
    (hw : 0 < img.width) (hh : 0 < img.height)
    (hwf : img.pixels.length = img.width * img.height)
    (h : compare img img {} = Except.ok res) :
    res.changedPixelCount = 0 ∧ res.overlay = img := by
  obtain ⟨_, _, _, _, w, hht, hdims, hres⟩ := compare_ok_elim h
  have hdims2 : some (img.width, img.height) = some (w, hht) := hdims
  injection hdims2 with hdims2
  simp only [Prod.mk.injEq] at hdims2
  obtain ⟨hw2, hh2⟩ := hdims2
  subst hw2
  subst hh2
  subst hres
  constructor
  · simp only [diffResultOf]
    rw [List.filter_eq_nil_iff.mpr, List.length_nil]
    intro j _
    simp [changedAtIdx, pixelChanged_self]
  · obtain ⟨w0, h0, px⟩ := img
    simp only at hw hh hwf
    simp only [diffResultOf, RasterImage.mk.injEq]
    refine ⟨trivial, trivial, ?_⟩
    apply List.ext_getElem
    · simp [hwf]
    · intro j hj1 hj2
      simp only [List.getElem_map, List.getElem_range,
        List.length_map, List.length_range] at hj1 ⊢
      have hjlt : j < w0 * h0 := by simpa using hj1
      have hx : j % w0 < w0 := Nat.mod_lt _ hw
      have hy : j / w0 < h0 := by
        apply Nat.div_lt_of_lt_mul
        exact hjlt
      have hidx : j / w0 * w0 + j % w0 = j := by
        rw [Nat.mul_comm]
        exact Nat.div_add_mod j w0
      simp only [overlayPixel, pixelChanged_self, Bool.false_eq_true,
        if_false, RasterImage.pixelAtIdx, RasterImage.pixelAt]
      rw [if_pos ⟨hx, hy⟩]
      rw [hidx, List.getD_eq_getElem _ _ hj2]

/-- Witness for C4: `img1x1` compared against itself yields count 0 and
the same image back. -/
theorem compare_self_identity_witness :
    compare img1x1 img1x1 {} = Except.ok resSelf ∧
    (resSelf.changedPixelCount = 0 ∧ resSelf.overlay = img1x1) :=
  ⟨rfl,
    compare_self_identity img1x1 resSelf (by decide) (by decide)
      (by decide) rfl⟩

end ImageDiff

example :
    (ImageDiff.compare ⟨1, 1, [⟨100, 0, 0, 255⟩]⟩ ⟨1, 1, [⟨130, 0, 0, 255⟩]⟩
      {}).map ImageDiff.DiffResult.changedPixelCount = Except.ok 0 := rfl

example :
    (ImageDiff.compare ⟨1, 1, [⟨100, 0, 0, 255⟩]⟩ ⟨1, 1, [⟨131, 0, 0, 255⟩]⟩
      {}).map ImageDiff.DiffResult.changedPixelCount = Except.ok 1 := rfl
